import Mathlib

/-!
Verification of the natural-language specification of the
`jdhp-sap/data-pipeline-standalone-scripts` repository against a shallow
embedding of its Python sources (`datapipe/io/images.py`,
`datapipe/denoising/null.py`).

Numpy floating-point cells are modelled as `FVal` (a rational number or NaN),
numpy arrays as a shape plus a flat cell list (`NDArray`) or as plain lists
where the source only uses elementwise operations, FITS files as lists of
HDUs carrying a header (list of key/value/comment cards), optional data and
an image flag.  Fallible Python code is modelled with `Except`; functions
that must release a native handle additionally return a `Bool` recording
whether the handle was closed before the function terminated.
-/

set_option maxHeartbeats 1000000

namespace Datapipe

/-- A numpy floating-point cell value: NaN or a (finite) rational number. -/
inductive FVal where
  | nan : FVal
  | num : ℚ → FVal
deriving DecidableEq, Repr

/-- `np.isnan` on a single cell. -/
def FVal.isNan : FVal → Bool
  | .nan => true
  | .num _ => false

/-- The finite rational carried by a cell, if any. -/
def FVal.toRat : FVal → Option ℚ
  | .nan => none
  | .num q => some q

/-- A numpy ndarray: its shape and its cells in row-major order.
`ndim` is the length of the shape, as in numpy. -/
structure NDArray where
  shape : List ℕ
  data : List FVal
deriving DecidableEq, Repr

/-- `numpy.ndarray.ndim`. -/
def NDArray.ndim (a : NDArray) : ℕ := a.shape.length

/-- `np.nansum` over a cell list: the sum of the non-NaN cells
(numpy treats NaN as zero; the sum of an empty or all-NaN list is 0). -/
def nansum (l : List FVal) : ℚ := (l.filterMap FVal.toRat).sum

/-- `np.nanmin` over a nonempty cell list: the minimum of the non-NaN
cells, or NaN when every cell is NaN (numpy then emits a warning and
returns NaN). -/
def nanminF (l : List FVal) : FVal :=
  match l.filterMap FVal.toRat with
  | [] => .nan
  | q :: qs => .num (qs.foldl min q)

/-- `np.nanmax` over a nonempty cell list, NaN when every cell is NaN. -/
def nanmaxF (l : List FVal) : FVal :=
  match l.filterMap FVal.toRat with
  | [] => .nan
  | q :: qs => .num (qs.foldl max q)

/-- Embeds `null` from `datapipe/denoising/null.py` (lines 43-45):
`def null(img): return img`. -/
def null {α : Type} (img : α) : α := img

/-- Embeds `fill_nan_pixels` from `datapipe/io/images.py` (lines 128-194)
in the `noise_distribution=None` case: `nan_mask = np.isnan(image)` then
`image[nan_mask] = 0`.  The in-place update is modelled by returning the
updated array next to the returned mask. -/
def fill_nan_pixels (image : List FVal) : List Bool × List FVal :=
  let nan_mask := image.map FVal.isNan
  let filled := image.map (fun v => if v.isNan then FVal.num 0 else v)
  (nan_mask, filled)

/-- `np.max` over one pixel's waveform samples (`r0_adc_samples[0].max(axis=1)`
applies this to every pixel row).  numpy raises on an empty row; for a
nonempty row this is its maximum. -/
def npAmaxRow (samples : List ℚ) : ℚ := samples.foldl max (samples.headD 0)

/-- The per-pixel peak of the high-gain raw waveform:
`r0_adc_samples[0].max(axis=1)` in `simtel_event_to_images`. -/
def channelPeaks (adc_samples_hg : List (List ℚ)) : List ℚ :=
  adc_samples_hg.map npAmaxRow

/-- The saturation threshold used by the channel merge in
`simtel_event_to_images` (images.py lines 457/462/467): `2**12 - 1`. -/
def CHANNEL_THRESHOLD : ℚ := 2 ^ 12 - 1

/-- `calibrated_image[0, peaks >= THRESHOLD] = 0`: the high-gain channel
with saturated pixels zeroed. -/
def maskedHG (cal_hg : List ℚ) (peaks : List ℚ) : List ℚ :=
  List.zipWith (fun p v => if CHANNEL_THRESHOLD ≤ p then 0 else v) peaks cal_hg

/-- `calibrated_image[1, peaks < THRESHOLD] = 0`: the low-gain channel
with unsaturated pixels zeroed. -/
def maskedLG (cal_lg : List ℚ) (peaks : List ℚ) : List ℚ :=
  List.zipWith (fun p v => if p < CHANNEL_THRESHOLD then 0 else v) peaks cal_lg

/-- Embeds the dual-channel merge of `simtel_event_to_images`
(images.py lines 455-470, identical for ASTRICam/NectarCam/LSTCam):
zero the low-gain channel where the high-gain raw peak is below the
threshold, zero the high-gain channel where it is at or above the
threshold, then `calibrated_image.sum(axis=0)`. -/
def mix_channels (cal_hg cal_lg : List ℚ) (adc_samples_hg : List (List ℚ)) : List ℚ :=
  let peaks := channelPeaks adc_samples_hg
  List.zipWith (· + ·) (maskedHG cal_hg peaks) (maskedLG cal_lg peaks)

/-- A FITS header value (astropy stores strings, integers or floats). -/
inductive HVal where
  | str : String → HVal
  | int : Int → HVal
  | flt : FVal → HVal
deriving DecidableEq, Repr

/-- One FITS header card: keyword, value and comment (astropy's comment
defaults to the empty string). -/
structure Card where
  key : String
  value : HVal
  comment : String
deriving DecidableEq, Repr

/-- `header[key]` lookup (first card with the keyword). -/
def headerGet (h : List Card) (k : String) : Option HVal :=
  (h.find? (fun c => c.key == k)).map Card.value

/-- `header.comments[key]` lookup. -/
def commentGet (h : List Card) (k : String) : Option String :=
  (h.find? (fun c => c.key == k)).map Card.comment

/-- `header[key] = v`: overwrite the first card with the keyword (keeping
its comment, as astropy does) or append a new card with an empty comment. -/
def headerSet (h : List Card) (k : String) (v : HVal) : List Card :=
  match h with
  | [] => [{ key := k, value := v, comment := "" }]
  | c :: h => if c.key == k then { c with value := v } :: h
              else c :: headerSet h k v

/-- `header.comments[key] = s`: set the comment of the first card with the
keyword (in `save_benchmark_images` this is only done right after
`header[key] = v`, so the card exists). -/
def commentSet (h : List Card) (k : String) (s : String) : List Card :=
  match h with
  | [] => []
  | c :: h => if c.key == k then { c with comment := s } :: h
              else c :: commentSet h k s

/-- One Header Data Unit of a FITS file: header cards, optional array data
and astropy's `is_image` flag (true for primary/image HDUs). -/
structure HDU where
  header : List Card
  data : Option NDArray
  isImage : Bool
deriving DecidableEq, Repr

/-- A FITS file as astropy's `HDUList`. -/
abbrev FitsFile : Type := List HDU

/-- The Python exceptions raised by the embedded fragments of
`datapipe/io/images.py` and `datapipe/denoising/null.py`. -/
inductive FitsErr where
  /-- `KeyError` from a missing header keyword or comment. -/
  | keyError : String → FitsErr
  /-- `IndexError` from `hdu_list[0]` on an empty HDU list. -/
  | indexError : FitsErr
  /-- `TypeError` from `np.nansum(None)` when HDU 1 carries no data. -/
  | typeError : FitsErr
  /-- `ValueError` from `np.nanmin` on an empty array. -/
  | valueError : FitsErr
  /-- `WrongFitsFileStructure(file_path)` (images.py lines 113-123). -/
  | wrongFitsFileStructure : String → FitsErr
  /-- The bare `Exception("Unknown version number")` (images.py line 959). -/
  | unknownVersion : FitsErr
  /-- `WrongHDUError(file_path, hdu_index)` (images.py lines 78-89). -/
  | wrongHDU : String → Int → FitsErr
  /-- `NotAnImageError(file_path, hdu_index)` (images.py lines 91-103). -/
  | notAnImage : String → Int → FitsErr
  /-- The bare dimension `Exception`s of `save_benchmark_images`. -/
  | dimensionError : FitsErr
deriving DecidableEq, Repr

/-- A value of the metadata mapping handed to `save_benchmark_images`:
either a plain scalar or a `(value, unit)` pair as produced by
`quantity_to_tuple`. -/
inductive MetaVal where
  | scalar : HVal → MetaVal
  | pair : HVal → String → MetaVal
deriving DecidableEq, Repr

/-- The metadata-writing loop of `save_benchmark_images` (images.py lines
1042-1047): a `(value, unit)` tuple becomes a header value plus a comment
carrying the unit string, any other value becomes a plain header value. -/
def writeMeta (h : List Card) (metadata : List (String × MetaVal)) : List Card :=
  metadata.foldl
    (fun acc kv =>
      match kv.2 with
      | .scalar v => headerSet acc kv.1 v
      | .pair v u => commentSet (headerSet acc kv.1 v) kv.1 u)
    h

/-- Embeds `save_benchmark_images` (images.py lines 974-1054): validate each
array's dimensionality, build the 7 image HDUs (input, reference, adc sums,
pedestal, gains, pixel positions, pixel mask), write a `desc` card on each
and the metadata mapping onto HDU 0's header.  The written file is modelled
as the resulting HDU list. -/
def save_benchmark_images (img pe_img adc_sums_img pedestal_img gains_img
    pixel_pos pixel_mask : NDArray) (metadata : List (String × MetaVal)) :
    Except FitsErr FitsFile :=
  if img.ndim ≠ 2 then .error .dimensionError
  else if pe_img.ndim ≠ 2 then .error .dimensionError
  else if adc_sums_img.ndim ≠ 3 then .error .dimensionError
  else if pedestal_img.ndim ≠ 3 then .error .dimensionError
  else if gains_img.ndim ≠ 3 then .error .dimensionError
  else if pixel_pos.ndim ≠ 3 then .error .dimensionError
  else if pixel_mask.ndim ≠ 2 then .error .dimensionError
  else
    .ok [⟨writeMeta [⟨"desc", .str "calibrated image", ""⟩] metadata, some img, true⟩,
         ⟨[⟨"desc", .str "pe image", ""⟩], some pe_img, true⟩,
         ⟨[⟨"desc", .str "adc sum images", ""⟩], some adc_sums_img, true⟩,
         ⟨[⟨"desc", .str "pedestal images", ""⟩], some pedestal_img, true⟩,
         ⟨[⟨"desc", .str "gains images", ""⟩], some gains_img, true⟩,
         ⟨[⟨"desc", .str "pixels position", ""⟩], some pixel_pos, true⟩,
         ⟨[⟨"desc", .str "pixels mask", ""⟩], some pixel_mask, true⟩]

/-- The images dictionary built by `load_benchmark_images` (images.py lines
943-957).  The sample fields are always `None` in version 1 files. -/
structure ImagesDict where
  input_image : Option NDArray
  reference_image : Option NDArray
  adc_sum_image : Option NDArray
  pedestal_image : Option NDArray
  gains_image : Option NDArray
  pixels_position : Option NDArray
  pixels_mask : Option NDArray
  input_samples : Option NDArray
  adc_samples : Option NDArray
  extracted_samples : Option NDArray
  peakpos : Option NDArray
deriving DecidableEq, Repr

/-- The metadata dictionary built by `load_benchmark_images` (images.py
lines 878-922 and 963-965). -/
structure MetaDict where
  version : HVal
  cam_id : HVal
  tel_id : HVal
  event_id : HVal
  file_path : String
  simtel_path : HVal
  num_tel_with_trigger : HVal
  mc_energy : HVal
  mc_energy_unit : String
  mc_azimuth : HVal
  mc_azimuth_unit : String
  mc_altitude : HVal
  mc_altitude_unit : String
  mc_core_x : HVal
  mc_core_x_unit : String
  mc_core_y : HVal
  mc_core_y_unit : String
  mc_height_first_interaction : HVal
  mc_height_first_interaction_unit : String
  ev_count : HVal
  run_id : HVal
  num_tel_with_data : HVal
  optical_foclen : HVal
  optical_foclen_unit : String
  tel_pos_x : HVal
  tel_pos_x_unit : String
  tel_pos_y : HVal
  tel_pos_y_unit : String
  tel_pos_z : HVal
  tel_pos_z_unit : String
  npe : FVal
  min_npe : FVal
  max_npe : FVal
deriving DecidableEq, Repr

/-- The header keywords `load_benchmark_images` reads (images.py lines
880-921), in reading order. -/
def requiredValueKeys : List String :=
  ["version", "cam_id", "tel_id", "event_id", "simtel", "tel_trig",
   "energy", "mc_az", "mc_alt", "mc_corex", "mc_corey", "mc_hfi", "count",
   "run_id", "tel_data", "foclen", "tel_posx", "tel_posy", "tel_posz"]

/-- The metadata-reading block of `load_benchmark_images` (images.py lines
878-922), performed on HDU 0's header before the structure check: the
first keyword missing from the header (in reading order) raises its
`KeyError`; otherwise the metadata dictionary is filled from the header
values and, for the unit fields, the header comments (a card's comment
defaults to the empty string).  The derived statistics
`npe`/`min_npe`/`max_npe` are filled in later (lines 963-965) and are
initialised to 0 here. -/
def readMeta (h : List Card) (input_file_path : String) :
    Except FitsErr MetaDict :=
  match requiredValueKeys.find? (fun k => (headerGet h k).isNone) with
  | some k => .error (.keyError k)
  | none =>
    .ok { version := (headerGet h "version").getD (.int 0),
          cam_id := (headerGet h "cam_id").getD (.int 0),
          tel_id := (headerGet h "tel_id").getD (.int 0),
          event_id := (headerGet h "event_id").getD (.int 0),
          file_path := input_file_path,
          simtel_path := (headerGet h "simtel").getD (.int 0),
          num_tel_with_trigger := (headerGet h "tel_trig").getD (.int 0),
          mc_energy := (headerGet h "energy").getD (.int 0),
          mc_energy_unit := (commentGet h "energy").getD "",
          mc_azimuth := (headerGet h "mc_az").getD (.int 0),
          mc_azimuth_unit := (commentGet h "mc_az").getD "",
          mc_altitude := (headerGet h "mc_alt").getD (.int 0),
          mc_altitude_unit := (commentGet h "mc_alt").getD "",
          mc_core_x := (headerGet h "mc_corex").getD (.int 0),
          mc_core_x_unit := (commentGet h "mc_corex").getD "",
          mc_core_y := (headerGet h "mc_corey").getD (.int 0),
          mc_core_y_unit := (commentGet h "mc_corey").getD "",
          mc_height_first_interaction := (headerGet h "mc_hfi").getD (.int 0),
          mc_height_first_interaction_unit := (commentGet h "mc_hfi").getD "",
          ev_count := (headerGet h "count").getD (.int 0),
          run_id := (headerGet h "run_id").getD (.int 0),
          num_tel_with_data := (headerGet h "tel_data").getD (.int 0),
          optical_foclen := (headerGet h "foclen").getD (.int 0),
          optical_foclen_unit := (commentGet h "foclen").getD "",
          tel_pos_x := (headerGet h "tel_posx").getD (.int 0),
          tel_pos_x_unit := (commentGet h "tel_posx").getD "",
          tel_pos_y := (headerGet h "tel_posy").getD (.int 0),
          tel_pos_y_unit := (commentGet h "tel_posy").getD "",
          tel_pos_z := (headerGet h "tel_posz").getD (.int 0),
          tel_pos_z_unit := (commentGet h "tel_posz").getD "",
          npe := .num 0, min_npe := .num 0, max_npe := .num 0 }

/-- The version 1 structure test of `load_benchmark_images` (images.py line
935): `len(hdu_list) != 7` or any of the first 7 HDUs not image-typed
(Python's `or` short-circuits, so the indexing is safe). -/
def benchmarkStructureBad (hdu_list : List HDU) : Bool :=
  hdu_list.length ≠ 7 || (hdu_list.take 7).any (fun h => !h.isImage)

/-- The data of `hdu_list[i]`, for indices known to be in range. -/
def hduData (hdu_list : List HDU) (i : ℕ) : Option NDArray :=
  match hdu_list.get? i with
  | some h => h.data
  | none => none

/-- Embeds `load_benchmark_images` (images.py lines 853-969).  The second
component of the result records whether `hdu_list.close()` was called
before the function terminated: the metadata `KeyError`s, the unknown
version `Exception` and the statistics errors all propagate without
closing the file, while the `WrongFitsFileStructure` path closes first
(line 936) and the success path closes at line 967. -/
def load_benchmark_images (hdu_list : FitsFile) (input_file_path : String) :
    Except FitsErr (ImagesDict × MetaDict) × Bool :=
  match List.head? hdu_list with
  | none => (.error .indexError, false)
  | some hdu0 =>
    match readMeta hdu0.header input_file_path with
    | .error e => (.error e, false)
    | .ok md =>
      if md.version = HVal.int 1 then
        if benchmarkStructureBad hdu_list then
          (.error (.wrongFitsFileStructure input_file_path), true)
        else
          let images : ImagesDict :=
            { input_image := hduData hdu_list 0,
              reference_image := hduData hdu_list 1,
              adc_sum_image := hduData hdu_list 2,
              pedestal_image := hduData hdu_list 3,
              gains_image := hduData hdu_list 4,
              pixels_position := hduData hdu_list 5,
              pixels_mask := hduData hdu_list 6,
              input_samples := none, adc_samples := none,
              extracted_samples := none, peakpos := none }
          match images.reference_image with
          | none => (.error .typeError, false)
          | some ref =>
            if ref.data.isEmpty then (.error .valueError, false)
            else
              (.ok (images,
                    { md with npe := .num (nansum ref.data),
                              min_npe := nanminF ref.data,
                              max_npe := nanmaxF ref.data }), true)
      else (.error .unknownVersion, false)

/-- Embeds `load_fits` (images.py lines 1059-1100).  The Bool component
records whether `hdu_list.close()` was called; this function closes the
file on every path. -/
def load_fits (hdu_list : FitsFile) (input_file_path : String)
    (hdu_index : Int) : Except FitsErr (Option NDArray) × Bool :=
  if h : 0 ≤ hdu_index ∧ hdu_index < (List.length hdu_list : Int) then
    let hdu := hdu_list.get ⟨hdu_index.toNat, by omega⟩
    if hdu.isImage then (.ok hdu.data, true)
    else (.error (.notAnImage input_file_path hdu_index), true)
  else (.error (.wrongHDU input_file_path hdu_index), true)

/-- The error conditions of the assessment collaborator
(`datapipe.benchmark.assess`, not under src/). -/
inductive AssessError where
  | emptyReferenceImageError : AssessError
  | emptyOutputImageError : AssessError
deriving DecidableEq, Repr

/-- Modelled from the spec: `datapipe.benchmark.assess.assess_image_cleaning`
(the `datapipe.benchmark.assess` module is not under src/; only its caller
`null.py` is).  Per spec sections 4.5 and 7(c) it computes a metric-specific
score comparing a denoised image to a reference image and raises the
"empty reference image" / "empty output image" conditions on degenerate
all-zero arrays.  The score value itself is implementation-defined; only
the error conditions matter here, and the score is modelled as the
elementwise absolute difference summed. -/
def assess_image_cleaning (_input_img : List ℚ) (output_img reference_img : List ℚ)
    (benchmark_method : String) : Except AssessError (String × ℚ) :=
  if reference_img.all (fun v => v == 0) then .error .emptyReferenceImageError
  else if output_img.all (fun v => v == 0) then .error .emptyOutputImageError
  else .ok (benchmark_method,
            (List.zipWith (fun a b => |a - b|) output_img reference_img).sum)

/-- One input file of the benchmark batch driver: the image loaded at the
requested HDU index, the reference image loaded at HDU 1, and the measured
wall-clock execution time of the denoiser on it (an oracle input, since
real time is outside the embedding). -/
structure InputFile where
  path : String
  input_img : List ℚ
  reference_img : List ℚ
  exec_time : ℚ
deriving DecidableEq, Repr

/-- The accumulators and printed warnings of `main` in
`datapipe/denoising/null.py` (lines 76-136). -/
structure BatchState where
  file_path_list : List String
  score_list : List (String × ℚ)
  execution_time_list : List ℚ
  printed : List String
deriving DecidableEq, Repr

/-- Embeds the benchmark branch of the per-file body of `main` in
`datapipe/denoising/null.py` (lines 117-136): score the cleaned image
(`null` applied to the input), append `(file path, score, execution time)`
on success, and on an empty-reference / empty-output condition print a
warning and skip the file.  Image loading is modelled as already done (see
`null_main_process_file` for the loading step the module actually takes). -/
def process_file (benchmark_method : String) (st : BatchState)
    (f : InputFile) : BatchState :=
  let cleaned_img := null f.input_img
  match assess_image_cleaning f.input_img cleaned_img f.reference_img
      benchmark_method with
  | .ok score_tuple =>
      { st with file_path_list := st.file_path_list ++ [f.path],
                score_list := st.score_list ++ [score_tuple],
                execution_time_list := st.execution_time_list ++ [f.exec_time] }
  | .error .emptyReferenceImageError =>
      { st with printed := st.printed ++ ["Empty reference image error"] }
  | .error .emptyOutputImageError =>
      { st with printed := st.printed ++ ["Empty output image error"] }

/-- The batch loop of `main` in `datapipe/denoising/null.py` with benchmark
mode enabled, starting from empty accumulators (lines 76-79). -/
def run_batch (benchmark_method : String) (files : List InputFile) :
    BatchState :=
  files.foldl (process_file benchmark_method) ⟨[], [], [], []⟩

/-- A file is scored (not skipped) exactly when neither its reference image
nor its (identity-cleaned) output image is all-zero. -/
def scoredPred (f : InputFile) : Bool :=
  !(f.reference_img.all (fun v => v == 0)) &&
  !(f.input_img.all (fun v => v == 0))

/-- The top-level names defined by the module `datapipe.io.images`
(its `__all__` list, classes, functions and constants; images.py).
`load` is not among them; the module's FITS loader is `load_fits`. -/
def images_module_names : List String :=
  ["__all__", "DEBUG", "FitsError", "WrongHDUError", "NotAnImageError",
   "WrongDimensionError", "WrongFitsFileStructure", "fill_nan_pixels",
   "image_files_in_dir", "image_files_in_paths", "Image1D", "Image2D",
   "image_generator", "quantity_to_tuple", "simtel_event_to_images",
   "simtel_images_generator", "load_benchmark_images",
   "save_benchmark_images", "load_fits", "save_fits", "plot_ctapipe_image",
   "plot_hillas_parameters_on_axes", "print_hillas_parameters",
   "hillas_parameters_to_df", "COLOR_MAP", "mpl_save", "plot", "plot_hist",
   "plot_list", "mpl_save_list", "export_image_as_plain_text"]

/-- Python attribute lookup on a module: `AttributeError` (carrying the
attribute name) when the module defines no such top-level name. -/
def module_getattr (names : List String) (attr : String) :
    Except String Unit :=
  if attr ∈ names then .ok () else .error attr

/-- Milestones of the per-file processing of `main` in `null.py`. -/
inductive DriverEvent where
  | denoised : DriverEvent
  | plotted : DriverEvent
  | scored : DriverEvent
deriving DecidableEq, Repr

/-- Embeds the start of the per-file body of `main` in
`datapipe/denoising/null.py` (lines 92-113): the first statement evaluates
`images.load(input_file_path, hdu_index)`, which begins with an attribute
lookup of `load` on the `datapipe.io.images` module.  When that lookup
fails the exception propagates and nothing further happens for the file;
the continuation after a successful lookup is not modelled (it is
unreachable for the real module's name table) and reports no events. -/
def null_main_process_file (module_names : List String) (_path : String)
    (_hdu_index : Int) : Except String (List DriverEvent) :=
  match module_getattr module_names "load" with
  | .error a => .error a
  | .ok _ => .ok []

/-- A directory entry as seen by `os.listdir` plus `os.path.isfile`. -/
structure DirEntry where
  name : String
  isFile : Bool
deriving DecidableEq, Repr

/-- The extension allow-list of `image_files_in_dir` (images.py line 218). -/
def FILE_EXT : List String := [".simtel", ".simtel.gz", ".fits", ".fit"]

/-- Python's `str.lower`, character-wise (the extensions compared against
are ASCII, for which this agrees with Python). -/
def pyLower (s : String) : String := ⟨s.data.map Char.toLower⟩

/-- `file_name.lower().endswith(FILE_EXT)`: true when the lowercased name
ends in one of the allowed extensions. -/
def matchesExt (name : String) : Bool :=
  FILE_EXT.any (fun e => e.data.isSuffixOf (pyLower name).data)

/-- The loop of `image_files_in_dir` (images.py lines 221-230) with its
counter: a matching regular file first increments the counter, then the
loop breaks if the counter exceeds the cap and yields the file otherwise. -/
def filesInDirAux (entries : List DirEntry) (counter : ℕ)
    (max_num_files : Option ℕ) : List String :=
  match entries with
  | [] => []
  | e :: rest =>
    if e.isFile && matchesExt e.name then
      let c := counter + 1
      match max_num_files with
      | some m =>
        if c > m then [] else e.name :: filesInDirAux rest c (some m)
      | none => e.name :: filesInDirAux rest c none
    else filesInDirAux rest counter max_num_files

/-- Embeds `image_files_in_dir` (images.py lines 199-230): yield the
regular files of a directory whose lowercased name ends in one of the
allowed extensions, up to an optional maximum count. -/
def image_files_in_dir (entries : List DirEntry)
    (max_num_files : Option ℕ) : List String :=
  filesInDirAux entries 0 max_num_files

/-- A path argument of `image_files_in_paths`: a directory (with its
entries), a regular file, or anything else (which raises). -/
inductive PathItem where
  | dir : List DirEntry → PathItem
  | file : String → PathItem
  | other : String → PathItem
deriving DecidableEq, Repr

/-- The inner loop of `image_files_in_paths` over one directory's matching
files (images.py lines 260-265): each file increments the shared counter;
past the cap the inner loop breaks (the outer loop continues).  Returns
the yielded files and the updated counter. -/
def innerDirLoop (files : List String) (counter : ℕ)
    (max_num_files : Option ℕ) : List String × ℕ :=
  match files with
  | [] => ([], counter)
  | f :: rest =>
    match max_num_files with
    | some m =>
      if counter + 1 > m then ([], counter + 1)
      else (f :: (innerDirLoop rest (counter + 1) (some m)).1,
            (innerDirLoop rest (counter + 1) (some m)).2)
    | none =>
      (f :: (innerDirLoop rest (counter + 1) none).1,
       (innerDirLoop rest (counter + 1) none).2)

/-- The outer loop of `image_files_in_paths` (images.py lines 254-274).
A directory is expanded through `image_files_in_dir` *without* passing the
cap; an explicit file path increments the counter and is yielded with *no*
extension check; past the cap an explicit file path breaks the outer loop;
any other path raises `Exception("Wrong item:", path)` (second component
of the result). -/
def filesInPathsAux (paths : List PathItem) (counter : ℕ)
    (max_num_files : Option ℕ) : List String × Option String :=
  match paths with
  | [] => ([], none)
  | .dir entries :: rest =>
    ((innerDirLoop (image_files_in_dir entries none) counter max_num_files).1
       ++ (filesInPathsAux rest
             (innerDirLoop (image_files_in_dir entries none) counter
               max_num_files).2 max_num_files).1,
     (filesInPathsAux rest
       (innerDirLoop (image_files_in_dir entries none) counter
         max_num_files).2 max_num_files).2)
  | .file p :: rest =>
    match max_num_files with
    | some m =>
      if counter + 1 > m then ([], none)
      else (p :: (filesInPathsAux rest (counter + 1) (some m)).1,
            (filesInPathsAux rest (counter + 1) (some m)).2)
    | none =>
      (p :: (filesInPathsAux rest (counter + 1) none).1,
       (filesInPathsAux rest (counter + 1) none).2)
  | .other p :: _ => ([], some p)

/-- Embeds `image_files_in_paths` (images.py lines 233-274). -/
def image_files_in_paths (paths : List PathItem)
    (max_num_files : Option ℕ) : List String × Option String :=
  filesInPathsAux paths 0 max_num_files

/-- The number of matching regular files among a directory's entries. -/
def matchCount (entries : List DirEntry) : ℕ :=
  (entries.filter (fun e => e.isFile && matchesExt e.name)).length

/-- The number of items `image_files_in_paths` enumerates without a cap:
matching regular files for directory items, and every explicit file path
(the source applies no extension filter to those). -/
def pathsCount (paths : List PathItem) : ℕ :=
  (paths.map (fun p =>
    match p with
    | .dir entries => matchCount entries
    | .file _ => 1
    | .other _ => 0)).sum

/-- The matching-file count the claim describes for a path list: files
whose lowercase name ends in an allowed extension, whether they come from
a directory or are explicit file paths. -/
def claimMatchCount (paths : List PathItem) : ℕ :=
  (paths.map (fun p =>
    match p with
    | .dir entries => matchCount entries
    | .file name => if matchesExt name then 1 else 0
    | .other _ => 0)).sum

/-- Whether a `PathItem` is a valid path (a file or a directory); any other
argument makes `image_files_in_paths` raise `Exception("Wrong item:", path)`. -/
def isValidPath : PathItem → Bool
  | .other _ => false
  | _ => true

/-- The metadata mapping of a valid version 1 benchmark image record: the
keywords `load_benchmark_images` reads, with `(value, unit)` pairs exactly
for the fields whose unit comment it reads back. -/
def benchmarkMetadata (cam tel ev sim trig : HVal)
    (energy : HVal) (energyU : String) (az : HVal) (azU : String)
    (alt : HVal) (altU : String) (corex : HVal) (corexU : String)
    (corey : HVal) (coreyU : String) (hfi : HVal) (hfiU : String)
    (cnt runid teldata : HVal)
    (foclen : HVal) (foclenU : String) (posx : HVal) (posxU : String)
    (posy : HVal) (posyU : String) (posz : HVal) (poszU : String) :
    List (String × MetaVal) :=
  [("version", .scalar (.int 1)), ("cam_id", .scalar cam),
   ("tel_id", .scalar tel), ("event_id", .scalar ev),
   ("simtel", .scalar sim), ("tel_trig", .scalar trig),
   ("energy", .pair energy energyU), ("mc_az", .pair az azU),
   ("mc_alt", .pair alt altU), ("mc_corex", .pair corex corexU),
   ("mc_corey", .pair corey coreyU), ("mc_hfi", .pair hfi hfiU),
   ("count", .scalar cnt), ("run_id", .scalar runid),
   ("tel_data", .scalar teldata), ("foclen", .pair foclen foclenU),
   ("tel_posx", .pair posx posxU), ("tel_posy", .pair posy posyU),
   ("tel_posz", .pair posz poszU)]

/-- `save_benchmark_images` followed by `load_benchmark_images` on the
written file. -/
def save_then_load (img pe_img adc_sums_img pedestal_img gains_img
    pixel_pos pixel_mask : NDArray) (metadata : List (String × MetaVal))
    (path : String) : Except FitsErr (ImagesDict × MetaDict) × Bool :=
  match save_benchmark_images img pe_img adc_sums_img pedestal_img gains_img
      pixel_pos pixel_mask metadata with
  | .ok file => load_benchmark_images file path
  | .error e => (.error e, false)

/-- A primary-HDU header carrying every keyword `load_benchmark_images`
reads, with the given format version number. -/
def fullHeader (v : Int) : List Card :=
  [⟨"version", .int v, ""⟩, ⟨"cam_id", .str "ASTRICam", ""⟩,
   ⟨"tel_id", .int 1, ""⟩, ⟨"event_id", .int 2, ""⟩,
   ⟨"simtel", .str "run1.simtel.gz", ""⟩, ⟨"tel_trig", .int 3, ""⟩,
   ⟨"energy", .flt (.num 1), "TeV"⟩, ⟨"mc_az", .flt (.num 0), "rad"⟩,
   ⟨"mc_alt", .flt (.num 1), "rad"⟩, ⟨"mc_corex", .flt (.num 10), "m"⟩,
   ⟨"mc_corey", .flt (.num 20), "m"⟩, ⟨"mc_hfi", .flt (.num 30), "m"⟩,
   ⟨"count", .int 0, ""⟩, ⟨"run_id", .int 4, ""⟩,
   ⟨"tel_data", .int 5, ""⟩, ⟨"foclen", .flt (.num 16), "m"⟩,
   ⟨"tel_posx", .flt (.num 1), "m"⟩, ⟨"tel_posy", .flt (.num 2), "m"⟩,
   ⟨"tel_posz", .flt (.num 3), "m"⟩]

/-- A 2×2 image HDU with the given header. -/
def imageHDU (h : List Card) : HDU :=
  ⟨h, some ⟨[2, 2], [.num 1, .num 2, .num 3, .num 4]⟩, true⟩

/-- A 7-HDU, all-image FITS file whose version keyword holds 2: it deviates
from the benchmark layout only in its version number. -/
def versionTwoFile : FitsFile :=
  imageHDU (fullHeader 2) :: List.replicate 6 (imageHDU [])

/-- A 7-HDU, all-image FITS file whose version keyword holds 3. -/
def versionThreeFile : FitsFile :=
  imageHDU (fullHeader 3) :: List.replicate 6 (imageHDU [])

/-- A concrete directory listing: three matching image files (one with an
upper-case extension) and one non-matching text file. -/
def demoEntries : List DirEntry :=
  [⟨"A.FITS", true⟩, ⟨"b.txt", true⟩, ⟨"c.fits", true⟩,
   ⟨"d.simtel.gz", true⟩]

/-- A concrete batch: one real image (nonzero input and reference) and two
files whose reference images are all-zero. -/
def demoFiles : List InputFile :=
  [⟨"real.fits", [1, 2], [3, 0], 5⟩,
   ⟨"zero1.fits", [0, 0], [0, 0], 1⟩,
   ⟨"zero2.fits", [4], [0], 2⟩]

/-- A concrete 1×2 (2-D) array. -/
def demoImg2 : NDArray := ⟨[1, 2], [.num 2, .num 7]⟩

/-- A concrete 2-D reference image containing a NaN pixel. -/
def demoPe2 : NDArray := ⟨[1, 2], [.num 3, .nan]⟩

/-- A concrete 1×1×1 (3-D) array. -/
def demoArr3 : NDArray := ⟨[1, 1, 1], [.num 5]⟩

/-- Helper for the channel-merge claim: pointwise behaviour of
`mix_channels` below and at the threshold. -/
theorem mix_channels_getD (hg lg : List ℚ) (adc : List (List ℚ)) (i : ℕ)
    (h1 : hg.length = adc.length) (h2 : lg.length = adc.length)
    (hi : i < adc.length) :
    (CHANNEL_THRESHOLD ≤ npAmaxRow (adc.getD i []) →
        (mix_channels hg lg adc).getD i 0 = lg.getD i 0)
  ∧ (npAmaxRow (adc.getD i []) < CHANNEL_THRESHOLD →
        (mix_channels hg lg adc).getD i 0 = hg.getD i 0) := by
  induction adc generalizing hg lg i with
  | nil => simp at hi
  | cons a adc ih =>
    cases hg with
    | nil => simp at h1
    | cons h hg =>
      cases lg with
      | nil => simp at h2
      | cons l lg =>
        cases i with
        | zero =>
          constructor
          · intro hle
            rw [List.getD_cons_zero] at hle
            simp [mix_channels, channelPeaks, maskedHG, maskedLG, hle,
              not_lt.mpr hle]
          · intro hlt
            rw [List.getD_cons_zero] at hlt
            simp [mix_channels, channelPeaks, maskedHG, maskedLG, hlt,
              not_le.mpr hlt]
        | succ j =>
          have h1' : hg.length = adc.length := by simpa using h1
          have h2' : lg.length = adc.length := by simpa using h2
          have hj : j < adc.length := by simpa using hi
          have hrec := ih hg lg j h1' h2' hj
          simpa [mix_channels, channelPeaks, maskedHG, maskedLG] using hrec

/-- **C3**: in the dual-channel merge of `simtel_event_to_images`, a pixel
whose high-gain raw peak sample is at or above the threshold 4095 takes
the low-gain channel value, a pixel whose peak is strictly below 4095
takes the high-gain value, and the merged image is the elementwise sum of
the two masked channels; in particular a pixel whose peak is exactly 4095
gets the low-gain value. -/
theorem mix_channels_spec (cal_hg cal_lg : List ℚ) (adc : List (List ℚ))
    (i : ℕ) (h1 : cal_hg.length = adc.length)
    (h2 : cal_lg.length = adc.length) (hi : i < adc.length) :
    CHANNEL_THRESHOLD = 4095
  ∧ mix_channels cal_hg cal_lg adc =
      List.zipWith (· + ·) (maskedHG cal_hg (channelPeaks adc))
        (maskedLG cal_lg (channelPeaks adc))
  ∧ (4095 ≤ npAmaxRow (adc.getD i []) →
      (mix_channels cal_hg cal_lg adc).getD i 0 = cal_lg.getD i 0)
  ∧ (npAmaxRow (adc.getD i []) < 4095 →
      (mix_channels cal_hg cal_lg adc).getD i 0 = cal_hg.getD i 0) := by
  have hT : CHANNEL_THRESHOLD = (4095 : ℚ) := by norm_num [CHANNEL_THRESHOLD]
  have h := mix_channels_getD cal_hg cal_lg adc i h1 h2 hi
  rw [hT] at h
  exact ⟨hT, rfl, h.1, h.2⟩

/-- Witness for C3 on a synthetic two-channel array straddling the
boundary: pixel 0 peaks exactly at 4095 and gets the low-gain value 100,
pixel 1 peaks at 5 and gets the high-gain value 20. -/
theorem mix_channels_spec_witness :
    mix_channels [10, 20] [100, 200] [[4095, 7], [3, 5]] = [100, 20]
  ∧ ((4095 : ℚ) ≤ npAmaxRow (([[4095, 7], [3, 5]] : List (List ℚ)).getD 0 []) →
      (mix_channels [10, 20] [100, 200] [[4095, 7], [3, 5]]).getD 0 0 =
        ([100, 200] : List ℚ).getD 0 0)
  ∧ (npAmaxRow (([[(4095 : ℚ), 7], [3, 5]] : List (List ℚ)).getD 1 []) < 4095 →
      (mix_channels [10, 20] [100, 200] [[4095, 7], [3, 5]]).getD 1 0 =
        ([10, 20] : List ℚ).getD 1 0) := by
  refine ⟨by norm_num [mix_channels, channelPeaks, maskedHG, maskedLG,
      npAmaxRow, CHANNEL_THRESHOLD], ?_, ?_⟩
  · exact (mix_channels_spec [10, 20] [100, 200] [[4095, 7], [3, 5]] 0
      (by decide) (by decide) (by decide)).2.2.1
  · exact (mix_channels_spec [10, 20] [100, 200] [[4095, 7], [3, 5]] 1
      (by decide) (by decide) (by decide)).2.2.2

/-- **C8**: the null denoising algorithm is a fixed point and idempotent,
and its output has the same shape and numeric type as the input (the
output *is* the input). -/
theorem null_identity (img : NDArray) :
    null img = img ∧ null (null img) = null img
  ∧ (null img).shape = img.shape ∧ (null img).ndim = img.ndim :=
  ⟨rfl, rfl, rfl, rfl⟩

/-- **C10**: `fill_nan_pixels` with `noise_distribution=None` replaces
exactly the NaN entries with 0, leaves every non-NaN entry unchanged,
returns a boolean mask that is true precisely at the originally-NaN
positions, and the resulting array contains no NaN. -/
theorem fill_nan_pixels_spec (image : List FVal) (i : ℕ)
    (hi : i < image.length) :
    (fill_nan_pixels image).2.length = image.length
  ∧ ((fill_nan_pixels image).1.getD i false = true ↔
      image.getD i (.num 0) = .nan)
  ∧ (image.getD i (.num 0) ≠ .nan →
      (fill_nan_pixels image).2.getD i (.num 0) = image.getD i (.num 0))
  ∧ (image.getD i (.num 0) = .nan →
      (fill_nan_pixels image).2.getD i (.num 0) = .num 0)
  ∧ (∀ v ∈ (fill_nan_pixels image).2, v ≠ FVal.nan) := by
  have hmask : (fill_nan_pixels image).1.getD i false =
      FVal.isNan (image.get ⟨i, hi⟩) := by
    simp only [fill_nan_pixels]
    rw [List.getD_eq_getElem _ _ (by simpa using hi), List.getElem_map]
    simp
  have hfill : (fill_nan_pixels image).2.getD i (.num 0) =
      (if (image.get ⟨i, hi⟩).isNan then FVal.num 0
       else image.get ⟨i, hi⟩) := by
    simp only [fill_nan_pixels]
    rw [List.getD_eq_getElem _ _ (by simpa using hi), List.getElem_map]
    simp
  have hgi : image.getD i (.num 0) = image.get ⟨i, hi⟩ := by
    rw [List.getD_eq_getElem _ _ hi]
    simp
  refine ⟨by simp [fill_nan_pixels], ?_, ?_, ?_, ?_⟩
  · rw [hmask, hgi]
    cases image.get ⟨i, hi⟩ <;> simp [FVal.isNan]
  · intro hne
    rw [hgi] at hne
    rw [hfill, hgi]
    cases hx : image.get ⟨i, hi⟩ <;> simp_all [FVal.isNan]
  · intro hnan
    rw [hgi] at hnan
    rw [hfill, hnan]
    simp [FVal.isNan]
  · intro v hv
    simp only [fill_nan_pixels, List.mem_map] at hv
    obtain ⟨u, _, rfl⟩ := hv
    cases u <;> simp [FVal.isNan]

/-- Witness for C10 on the doctest image row `[1, NaN, 3]`: the mask is
`[false, true, false]`, the NaN is replaced by 0 and the rest are kept. -/
theorem fill_nan_pixels_spec_witness :
    fill_nan_pixels [FVal.num 1, FVal.nan, FVal.num 3] =
      ([false, true, false], [FVal.num 1, FVal.num 0, FVal.num 3])
  ∧ (([FVal.num 1, FVal.nan, FVal.num 3] : List FVal).getD 1 (.num 0) = .nan →
      (fill_nan_pixels [FVal.num 1, FVal.nan, FVal.num 3]).2.getD 1 (.num 0) =
        .num 0) := by
  refine ⟨by decide, ?_⟩
  exact (fill_nan_pixels_spec [FVal.num 1, FVal.nan, FVal.num 3] 1
    (by decide)).2.2.2.1

/-- **C9** (implicit): the per-file processing of `main` in `null.py`
evaluates `images.load`, an attribute the `datapipe.io.images` module never
defines (its FITS loader is `load_fits`), so for every input file the
processing fails with an attribute-lookup error before any image is
denoised, plotted or scored. -/
theorem null_driver_missing_load (path : String) (hdu_index : Int) :
    null_main_process_file images_module_names path hdu_index = .error "load"
  ∧ "load" ∉ images_module_names
  ∧ "load_fits" ∈ images_module_names
  ∧ ∀ evs, null_main_process_file images_module_names path hdu_index ≠
      .ok evs := by
  have h1 : null_main_process_file images_module_names path hdu_index =
      .error "load" := by
    simp [null_main_process_file, module_getattr, images_module_names]
  refine ⟨h1, by decide, by decide, fun evs hc => ?_⟩
  rw [h1] at hc
  exact Except.noConfusion hc

/-- **C4**: `load_fits` fails with `WrongHDUError` exactly when the index
is outside `[0, number of HDUs)`, fails with `NotAnImageError` when the
index is in range but the HDU is not image-typed, and otherwise returns
the data stored at that HDU; the handle is closed on every path. -/
theorem load_fits_spec (hdu_list : FitsFile) (path : String) (i : Int) :
    (load_fits hdu_list path i).2 = true
  ∧ ((load_fits hdu_list path i).1 = .error (.wrongHDU path i) ↔
      ¬(0 ≤ i ∧ i < (hdu_list.length : Int)))
  ∧ ∀ (h : 0 ≤ i ∧ i < (hdu_list.length : Int)),
      ((hdu_list.get ⟨i.toNat, by omega⟩).isImage = false →
        (load_fits hdu_list path i).1 = .error (.notAnImage path i))
    ∧ ((hdu_list.get ⟨i.toNat, by omega⟩).isImage = true →
        (load_fits hdu_list path i).1 =
          .ok (hdu_list.get ⟨i.toNat, by omega⟩).data) := by
  by_cases h : 0 ≤ i ∧ i < (hdu_list.length : Int)
  · by_cases himg : (hdu_list.get ⟨i.toNat, by omega⟩).isImage = true
    · simp only [List.get_eq_getElem] at himg
      simp [load_fits, h, himg]
    · simp only [List.get_eq_getElem, Bool.not_eq_true] at himg
      simp [load_fits, h, himg]
  · simp [load_fits, h]

/-- Witness for C4 on a concrete two-HDU file: HDU 0 is an image and is
returned, HDU 2 is out of range (`WrongHDUError`), HDU 1 is not an image
(`NotAnImageError`). -/
theorem load_fits_spec_witness :
    (load_fits [⟨[], some ⟨[1], [.num 7]⟩, true⟩, ⟨[], none, false⟩]
        "f.fits" 0).1 = .ok (some ⟨[1], [.num 7]⟩)
  ∧ (load_fits [⟨[], some ⟨[1], [.num 7]⟩, true⟩, ⟨[], none, false⟩]
        "f.fits" 2).1 = .error (.wrongHDU "f.fits" 2)
  ∧ (load_fits [⟨[], some ⟨[1], [.num 7]⟩, true⟩, ⟨[], none, false⟩]
        "f.fits" 1).1 = .error (.notAnImage "f.fits" 1) := by
  refine ⟨?_, ?_, ?_⟩
  · exact ((load_fits_spec [⟨[], some ⟨[1], [.num 7]⟩, true⟩,
      ⟨[], none, false⟩] "f.fits" 0).2.2 (by decide)).2 (by decide)
  · exact (load_fits_spec [⟨[], some ⟨[1], [.num 7]⟩, true⟩,
      ⟨[], none, false⟩] "f.fits" 2).2.1.mpr (by decide)
  · exact ((load_fits_spec [⟨[], some ⟨[1], [.num 7]⟩, true⟩,
      ⟨[], none, false⟩] "f.fits" 1).2.2 (by decide)).1 (by decide)

/-- Helper for file discovery: without a cap, `image_files_in_dir` yields
every matching regular file. -/
theorem filesInDirAux_none_length (entries : List DirEntry) (c : ℕ) :
    (filesInDirAux entries c none).length = matchCount entries := by
  induction entries generalizing c with
  | nil => simp [filesInDirAux, matchCount]
  | cons e rest ih =>
    by_cases he : (e.isFile && matchesExt e.name) = true
    · simp [filesInDirAux, he, matchCount, List.filter_cons, ih]
    · simp [filesInDirAux, he, matchCount, List.filter_cons, ih]

/-- Helper for file discovery: with a cap `m` and a counter already at `c`,
`image_files_in_dir`'s loop yields `min (m - c)` matching files. -/
theorem filesInDirAux_some_length (entries : List DirEntry) (c m : ℕ) :
    (filesInDirAux entries c (some m)).length =
      min (m - c) (matchCount entries) := by
  induction entries generalizing c with
  | nil => simp [filesInDirAux, matchCount]
  | cons e rest ih =>
    by_cases he : (e.isFile && matchesExt e.name) = true
    · have hmc : matchCount (e :: rest) = matchCount rest + 1 := by
        simp [matchCount, List.filter_cons, he]
      by_cases hc : c + 1 > m
      · simp [filesInDirAux, he, hc, hmc]
        omega
      · have hr := ih (c + 1)
        simp [filesInDirAux, he, hc, hmc, hr]
        omega
    · have hmc : matchCount (e :: rest) = matchCount rest := by
        simp [matchCount, List.filter_cons, he]
      simp [filesInDirAux, he, hmc, ih c]

/-- Helper for file discovery: the inner per-directory loop of
`image_files_in_paths` yields `min (m - c)` files and leaves the shared
counter so that `m - counter` drops by the number of candidate files. -/
theorem innerDirLoop_spec (files : List String) (c m : ℕ) :
    (innerDirLoop files c (some m)).1.length = min (m - c) files.length
  ∧ m - (innerDirLoop files c (some m)).2 = (m - c) - files.length := by
  induction files generalizing c with
  | nil => simp [innerDirLoop]
  | cons f rest ih =>
    by_cases hc : c + 1 > m
    · simp [innerDirLoop, hc]
      constructor <;> omega
    · have h1 := (ih (c + 1)).1
      have h2 := (ih (c + 1)).2
      simp [innerDirLoop, hc, h1, h2]
      constructor <;> omega

/-- Helper for file discovery: the outer loop of `image_files_in_paths`
over valid paths yields `min (m - c)` of its candidates (matching files of
directory items plus every explicit file path). -/
theorem filesInPathsAux_some_length (paths : List PathItem) (c m : ℕ)
    (hv : ∀ p ∈ paths, isValidPath p = true) :
    (filesInPathsAux paths c (some m)).1.length =
      min (m - c) (pathsCount paths) := by
  induction paths generalizing c with
  | nil => simp [filesInPathsAux, pathsCount]
  | cons p rest ih =>
    have hv' : ∀ q ∈ rest, isValidPath q = true := fun q hq =>
      hv q (List.mem_cons_of_mem _ hq)
    cases p with
    | dir entries =>
      have hlen : (image_files_in_dir entries none).length =
          matchCount entries := filesInDirAux_none_length entries 0
      have h1 : (innerDirLoop (image_files_in_dir entries none) c
          (some m)).1.length = min (m - c) (matchCount entries) := by
        rw [(innerDirLoop_spec _ c m).1, hlen]
      have h2 : m - (innerDirLoop (image_files_in_dir entries none) c
          (some m)).2 = (m - c) - matchCount entries := by
        rw [(innerDirLoop_spec _ c m).2, hlen]
      have h3 := ih (innerDirLoop (image_files_in_dir entries none) c
        (some m)).2 hv'
      simp only [filesInPathsAux, List.length_append, pathsCount,
        List.map_cons, List.sum_cons] at h3 ⊢
      rw [h1, h3]
      omega
    | file q =>
      by_cases hc : c + 1 > m
      · simp [filesInPathsAux, hc, pathsCount]
        omega
      · have h3 := ih (c + 1) hv'
        simp only [filesInPathsAux, hc, if_false, List.length_cons,
          pathsCount, List.map_cons, List.sum_cons] at h3 ⊢
        simp [h3]
        omega
    | other s =>
      exact absurd (hv _ (List.mem_cons_self _ _)) (by simp [isValidPath])

/-- Counterexample to **C7** as stated: `image_files_in_paths` applies no
extension filter to an explicit file path, so on the path list
`[file "a.txt"]` with cap 5 it yields 1 path although 0 files match the
claim's extension predicate, and `1 ≠ min 5 0`. -/
theorem image_files_in_paths_cex :
    (image_files_in_paths [PathItem.file "a.txt"] (some 5)).1.length = 1
  ∧ matchesExt "a.txt" = false
  ∧ claimMatchCount [PathItem.file "a.txt"] = 0
  ∧ (image_files_in_paths [PathItem.file "a.txt"] (some 5)).1.length ≠
      min 5 (claimMatchCount [PathItem.file "a.txt"]) := by
  refine ⟨rfl, by decide, by decide, by decide⟩

/-- **C7** amended: with a cap `N`, `image_files_in_dir` yields exactly
`min N (number of matching files)` (matching means a regular file whose
lowercased name ends in `.simtel`, `.simtel.gz`, `.fits` or `.fit`);
`image_files_in_paths` over valid paths yields exactly `min N M` where `M`
counts the matching files of its directory items plus *every* explicit
file path, matching or not. -/
theorem file_discovery_length (entries : List DirEntry)
    (paths : List PathItem) (N : ℕ)
    (hv : ∀ p ∈ paths, isValidPath p = true) :
    (image_files_in_dir entries (some N)).length = min N (matchCount entries)
  ∧ (image_files_in_paths paths (some N)).1.length =
      min N (pathsCount paths) := by
  constructor
  · have h := filesInDirAux_some_length entries 0 N
    simpa [image_files_in_dir] using h
  · have h := filesInPathsAux_some_length paths 0 N hv
    simpa [image_files_in_paths] using h

/-- Witness for the amended C7: a directory with three matching files
(one upper-case) and one `.txt` file capped at 2 yields 2 paths; the path
list `[that directory, file "x.fits"]` capped at 2 also yields
`min 2 (3 + 1) = 2`. -/
theorem file_discovery_length_witness :
    matchCount demoEntries = 3
  ∧ (image_files_in_dir demoEntries (some 2)).length = 2
  ∧ (image_files_in_paths [PathItem.dir demoEntries, PathItem.file "x.fits"]
      (some 2)).1.length = 2 := by
  have h := file_discovery_length demoEntries
    [PathItem.dir demoEntries, PathItem.file "x.fits"] 2 (by decide)
  refine ⟨by decide, ?_, ?_⟩
  · rw [h.1]
    decide
  · rw [h.2]
    decide

/-- Helper for the batch driver: one step appends one score entry exactly
when the file passes the degeneracy checks. -/
theorem process_file_score_length (m : String) (st : BatchState)
    (f : InputFile) :
    (process_file m st f).score_list.length =
      st.score_list.length + (if scoredPred f = true then 1 else 0) := by
  by_cases hr : f.reference_img.all (fun v => v == 0) <;>
    by_cases hi : f.input_img.all (fun v => v == 0) <;>
      simp [process_file, assess_image_cleaning, null, scoredPred, hr, hi]

/-- Helper for the batch driver: one step appends one execution-time entry
exactly when the file passes the degeneracy checks. -/
theorem process_file_time_length (m : String) (st : BatchState)
    (f : InputFile) :
    (process_file m st f).execution_time_list.length =
      st.execution_time_list.length +
        (if scoredPred f = true then 1 else 0) := by
  by_cases hr : f.reference_img.all (fun v => v == 0) <;>
    by_cases hi : f.input_img.all (fun v => v == 0) <;>
      simp [process_file, assess_image_cleaning, null, scoredPred, hr, hi]

/-- Helper for the batch driver: one step prints one warning exactly when
the file is skipped. -/
theorem process_file_printed_length (m : String) (st : BatchState)
    (f : InputFile) :
    (process_file m st f).printed.length =
      st.printed.length + (if scoredPred f = true then 0 else 1) := by
  by_cases hr : f.reference_img.all (fun v => v == 0) <;>
    by_cases hi : f.input_img.all (fun v => v == 0) <;>
      simp [process_file, assess_image_cleaning, null, scoredPred, hr, hi]

/-- Helper for the batch driver: one step records the file path exactly
when the file passes the degeneracy checks. -/
theorem process_file_paths (m : String) (st : BatchState) (f : InputFile) :
    (process_file m st f).file_path_list =
      st.file_path_list ++
        (if scoredPred f = true then [f.path] else []) := by
  by_cases hr : f.reference_img.all (fun v => v == 0) <;>
    by_cases hi : f.input_img.all (fun v => v == 0) <;>
      simp [process_file, assess_image_cleaning, null, scoredPred, hr, hi]

/-- Helper for the batch driver: over a whole batch the score list grows by
the number of non-degenerate files. -/
theorem batch_score_length (m : String) (files : List InputFile) :
    ∀ st : BatchState, (files.foldl (process_file m) st).score_list.length =
      st.score_list.length + (files.filter scoredPred).length := by
  induction files with
  | nil => intro st; simp
  | cons f rest ih =>
    intro st
    rw [List.foldl_cons, ih, process_file_score_length]
    by_cases hs : scoredPred f = true <;> simp [List.filter_cons, hs] <;> omega

/-- Helper for the batch driver: the execution-time list grows by the
number of non-degenerate files. -/
theorem batch_time_length (m : String) (files : List InputFile) :
    ∀ st : BatchState,
      (files.foldl (process_file m) st).execution_time_list.length =
        st.execution_time_list.length + (files.filter scoredPred).length := by
  induction files with
  | nil => intro st; simp
  | cons f rest ih =>
    intro st
    rw [List.foldl_cons, ih, process_file_time_length]
    by_cases hs : scoredPred f = true <;> simp [List.filter_cons, hs] <;> omega

/-- Helper for the batch driver: one warning is printed per skipped file. -/
theorem batch_printed_length (m : String) (files : List InputFile) :
    ∀ st : BatchState, (files.foldl (process_file m) st).printed.length =
      st.printed.length +
        (files.filter (fun f => !scoredPred f)).length := by
  induction files with
  | nil => intro st; simp
  | cons f rest ih =>
    intro st
    rw [List.foldl_cons, ih, process_file_printed_length]
    by_cases hs : scoredPred f = true <;> simp [List.filter_cons, hs] <;> omega

/-- Helper for the batch driver: the recorded file paths are exactly the
paths of the non-degenerate files, in order. -/
theorem batch_paths (m : String) (files : List InputFile) :
    ∀ st : BatchState, (files.foldl (process_file m) st).file_path_list =
      st.file_path_list ++ (files.filter scoredPred).map InputFile.path := by
  induction files with
  | nil => intro st; simp
  | cons f rest ih =>
    intro st
    rw [List.foldl_cons, ih, process_file_paths]
    by_cases hs : scoredPred f = true <;> simp [List.filter_cons, hs]

/-- **C6**: in the benchmark batch driver, files raising the empty-image
conditions are skipped (no path/score/time entry, one warning) while the
batch continues; with at most one non-degenerate reference image among
`N ≥ 2` files the score and time sequences end up strictly shorter than
`N`, every file is accounted for (warnings + scores = `N`), and the
recorded paths are exactly those of the scored files. -/
theorem batch_driver_skips_degenerate (m : String) (files : List InputFile)
    (hone : (files.filter
      (fun f => !(f.reference_img.all (fun v => v == 0)))).length ≤ 1)
    (hn : 2 ≤ files.length) :
    (run_batch m files).score_list.length < files.length
  ∧ (run_batch m files).execution_time_list.length =
      (run_batch m files).score_list.length
  ∧ (run_batch m files).printed.length +
      (run_batch m files).score_list.length = files.length
  ∧ (run_batch m files).file_path_list =
      (files.filter scoredPred).map InputFile.path := by
  have hsc := batch_score_length m files ⟨[], [], [], []⟩
  have ht := batch_time_length m files ⟨[], [], [], []⟩
  have hpr := batch_printed_length m files ⟨[], [], [], []⟩
  have hpa := batch_paths m files ⟨[], [], [], []⟩
  have hmono : (files.filter scoredPred).length ≤
      (files.filter
        (fun f => !(f.reference_img.all (fun v => v == 0)))).length := by
    refine (List.monotone_filter_right files ?_).length_le
    intro f hf
    simp only [scoredPred, Bool.and_eq_true] at hf
    exact hf.1
  have hpart : (files.filter scoredPred).length +
      (files.filter (fun f => !scoredPred f)).length = files.length :=
    (List.length_eq_length_filter_add scoredPred (l := files)).symm
  have hsc' : (run_batch m files).score_list.length =
      (files.filter scoredPred).length := by simpa [run_batch] using hsc
  have ht' : (run_batch m files).execution_time_list.length =
      (files.filter scoredPred).length := by simpa [run_batch] using ht
  have hpr' : (run_batch m files).printed.length =
      (files.filter (fun f => !scoredPred f)).length := by
    simpa [run_batch] using hpr
  have hpa' : (run_batch m files).file_path_list =
      (files.filter scoredPred).map InputFile.path := by
    simpa [run_batch] using hpa
  refine ⟨?_, ?_, ?_, hpa'⟩
  · rw [hsc']
    omega
  · rw [ht', hsc']
  · rw [hpr', hsc']
    omega

/-- Witness for C6: on the concrete batch of one real image and two
all-zero reference images the score and time lists have length 1 < 3, two
warnings are printed and only the real file's path is recorded. -/
theorem batch_driver_skips_degenerate_witness :
    (run_batch "mse" demoFiles).score_list.length < demoFiles.length
  ∧ (run_batch "mse" demoFiles).execution_time_list.length =
      (run_batch "mse" demoFiles).score_list.length
  ∧ (run_batch "mse" demoFiles).printed.length +
      (run_batch "mse" demoFiles).score_list.length = demoFiles.length
  ∧ (run_batch "mse" demoFiles).printed =
      ["Empty reference image error", "Empty reference image error"]
  ∧ (run_batch "mse" demoFiles).file_path_list = ["real.fits"] := by
  have h := batch_driver_skips_degenerate "mse" demoFiles (by decide)
    (by decide)
  refine ⟨h.1, h.2.1, h.2.2.1, by decide, ?_⟩
  rw [h.2.2.2]
  decide

/-- Helper for the round trip: the primary header written by
`save_benchmark_images` for a valid version 1 metadata mapping, computed
to a literal card list — scalars get an empty comment, `(value, unit)`
pairs get the unit string as comment. -/
theorem writeMeta_benchmark (cam tel ev sim trig energy : HVal)
    (energyU : String) (az : HVal) (azU : String) (alt : HVal)
    (altU : String) (corex : HVal) (corexU : String) (corey : HVal)
    (coreyU : String) (hfi : HVal) (hfiU : String) (cnt runid teldata : HVal)
    (foclen : HVal) (foclenU : String) (posx : HVal) (posxU : String)
    (posy : HVal) (posyU : String) (posz : HVal) (poszU : String) :
    writeMeta [⟨"desc", .str "calibrated image", ""⟩]
      (benchmarkMetadata cam tel ev sim trig energy energyU az azU alt altU
        corex corexU corey coreyU hfi hfiU cnt runid teldata foclen foclenU
        posx posxU posy posyU posz poszU) =
    [⟨"desc", .str "calibrated image", ""⟩,
     ⟨"version", .int 1, ""⟩, ⟨"cam_id", cam, ""⟩, ⟨"tel_id", tel, ""⟩,
     ⟨"event_id", ev, ""⟩, ⟨"simtel", sim, ""⟩, ⟨"tel_trig", trig, ""⟩,
     ⟨"energy", energy, energyU⟩, ⟨"mc_az", az, azU⟩,
     ⟨"mc_alt", alt, altU⟩, ⟨"mc_corex", corex, corexU⟩,
     ⟨"mc_corey", corey, coreyU⟩, ⟨"mc_hfi", hfi, hfiU⟩,
     ⟨"count", cnt, ""⟩, ⟨"run_id", runid, ""⟩, ⟨"tel_data", teldata, ""⟩,
     ⟨"foclen", foclen, foclenU⟩, ⟨"tel_posx", posx, posxU⟩,
     ⟨"tel_posy", posy, posyU⟩, ⟨"tel_posz", posz, poszU⟩] := by
  simp [benchmarkMetadata, writeMeta, headerSet, commentSet]

/-- **C1**: for every valid version 1 benchmark image record (2-D input and
reference images, 3-D adc-sum/pedestal/gains/pixel-position arrays, 2-D
pixel mask, and a metadata mapping whose `(value, unit)` entries become a
header value plus unit comment), `save_benchmark_images` followed by
`load_benchmark_images` on the written file reproduces every image array
exactly and every scalar and unit metadata field of the original mapping
(under the loader's field names), closing the file handle. -/
theorem save_load_roundtrip
    (img pe_img adc_sums_img pedestal_img gains_img pixel_pos
      pixel_mask : NDArray)
    (cam tel ev sim trig energy : HVal) (energyU : String)
    (az : HVal) (azU : String) (alt : HVal) (altU : String)
    (corex : HVal) (corexU : String) (corey : HVal) (coreyU : String)
    (hfi : HVal) (hfiU : String) (cnt runid teldata : HVal)
    (foclen : HVal) (foclenU : String) (posx : HVal) (posxU : String)
    (posy : HVal) (posyU : String) (posz : HVal) (poszU : String)
    (path : String)
    (h1 : img.ndim = 2) (h2 : pe_img.ndim = 2) (h3 : adc_sums_img.ndim = 3)
    (h4 : pedestal_img.ndim = 3) (h5 : gains_img.ndim = 3)
    (h6 : pixel_pos.ndim = 3) (h7 : pixel_mask.ndim = 2)
    (hne : pe_img.data ≠ []) :
    save_then_load img pe_img adc_sums_img pedestal_img gains_img pixel_pos
      pixel_mask
      (benchmarkMetadata cam tel ev sim trig energy energyU az azU alt altU
        corex corexU corey coreyU hfi hfiU cnt runid teldata foclen foclenU
        posx posxU posy posyU posz poszU) path =
      (.ok ({ input_image := some img, reference_image := some pe_img,
              adc_sum_image := some adc_sums_img,
              pedestal_image := some pedestal_img,
              gains_image := some gains_img,
              pixels_position := some pixel_pos,
              pixels_mask := some pixel_mask,
              input_samples := none, adc_samples := none,
              extracted_samples := none, peakpos := none },
            { version := .int 1, cam_id := cam, tel_id := tel,
              event_id := ev, file_path := path, simtel_path := sim,
              num_tel_with_trigger := trig,
              mc_energy := energy, mc_energy_unit := energyU,
              mc_azimuth := az, mc_azimuth_unit := azU,
              mc_altitude := alt, mc_altitude_unit := altU,
              mc_core_x := corex, mc_core_x_unit := corexU,
              mc_core_y := corey, mc_core_y_unit := coreyU,
              mc_height_first_interaction := hfi,
              mc_height_first_interaction_unit := hfiU,
              ev_count := cnt, run_id := runid,
              num_tel_with_data := teldata,
              optical_foclen := foclen, optical_foclen_unit := foclenU,
              tel_pos_x := posx, tel_pos_x_unit := posxU,
              tel_pos_y := posy, tel_pos_y_unit := posyU,
              tel_pos_z := posz, tel_pos_z_unit := poszU,
              npe := .num (nansum pe_img.data),
              min_npe := nanminF pe_img.data,
              max_npe := nanmaxF pe_img.data }), true) := by
  obtain ⟨s1, d1⟩ := img
  obtain ⟨s2, d2⟩ := pe_img
  obtain ⟨s3, d3⟩ := adc_sums_img
  obtain ⟨s4, d4⟩ := pedestal_img
  obtain ⟨s5, d5⟩ := gains_img
  obtain ⟨s6, d6⟩ := pixel_pos
  obtain ⟨s7, d7⟩ := pixel_mask
  simp only [NDArray.ndim] at h1 h2 h3 h4 h5 h6 h7
  obtain ⟨x1, y1, rfl⟩ := List.length_eq_two.mp h1
  obtain ⟨x2, y2, rfl⟩ := List.length_eq_two.mp h2
  obtain ⟨x3, y3, z3, rfl⟩ := List.length_eq_three.mp h3
  obtain ⟨x4, y4, z4, rfl⟩ := List.length_eq_three.mp h4
  obtain ⟨x5, y5, z5, rfl⟩ := List.length_eq_three.mp h5
  obtain ⟨x6, y6, z6, rfl⟩ := List.length_eq_three.mp h6
  obtain ⟨x7, y7, rfl⟩ := List.length_eq_two.mp h7
  obtain ⟨v0, dr, rfl⟩ : ∃ v l, d2 = v :: l := by
    cases d2 with
    | nil => exact absurd rfl hne
    | cons v l => exact ⟨v, l, rfl⟩
  have hw := writeMeta_benchmark cam tel ev sim trig energy energyU az azU
    alt altU corex corexU corey coreyU hfi hfiU cnt runid teldata foclen
    foclenU posx posxU posy posyU posz poszU
  simp only [save_then_load, save_benchmark_images, NDArray.ndim,
    List.length_cons, List.length_nil, hw]
  simp [load_benchmark_images, readMeta, requiredValueKeys, headerGet,
    commentGet, List.find?, benchmarkStructureBad, hduData]

/-- Witness for C1 on concrete arrays and metadata values (the reference
image contains a NaN pixel, exercising the NaN-aware statistics). -/
theorem save_load_roundtrip_witness :
    save_then_load demoImg2 demoPe2 demoArr3 demoArr3 demoArr3 demoArr3
      demoImg2
      (benchmarkMetadata (.str "ASTRICam") (.int 1) (.int 2)
        (.str "r.simtel") (.int 3) (.flt (.num 1)) "TeV" (.flt (.num 0))
        "rad" (.flt (.num 1)) "rad" (.flt (.num 10)) "m" (.flt (.num 20))
        "m" (.flt (.num 30)) "m" (.int 0) (.int 4) (.int 5)
        (.flt (.num 16)) "m" (.flt (.num 1)) "m" (.flt (.num 2)) "m"
        (.flt (.num 3)) "m") "out.fits" =
      (.ok ({ input_image := some demoImg2, reference_image := some demoPe2,
              adc_sum_image := some demoArr3,
              pedestal_image := some demoArr3,
              gains_image := some demoArr3,
              pixels_position := some demoArr3,
              pixels_mask := some demoImg2,
              input_samples := none, adc_samples := none,
              extracted_samples := none, peakpos := none },
            { version := .int 1, cam_id := .str "ASTRICam", tel_id := .int 1,
              event_id := .int 2, file_path := "out.fits",
              simtel_path := .str "r.simtel",
              num_tel_with_trigger := .int 3,
              mc_energy := .flt (.num 1), mc_energy_unit := "TeV",
              mc_azimuth := .flt (.num 0), mc_azimuth_unit := "rad",
              mc_altitude := .flt (.num 1), mc_altitude_unit := "rad",
              mc_core_x := .flt (.num 10), mc_core_x_unit := "m",
              mc_core_y := .flt (.num 20), mc_core_y_unit := "m",
              mc_height_first_interaction := .flt (.num 30),
              mc_height_first_interaction_unit := "m",
              ev_count := .int 0, run_id := .int 4,
              num_tel_with_data := .int 5,
              optical_foclen := .flt (.num 16), optical_foclen_unit := "m",
              tel_pos_x := .flt (.num 1), tel_pos_x_unit := "m",
              tel_pos_y := .flt (.num 2), tel_pos_y_unit := "m",
              tel_pos_z := .flt (.num 3), tel_pos_z_unit := "m",
              npe := .num (nansum demoPe2.data),
              min_npe := nanminF demoPe2.data,
              max_npe := nanmaxF demoPe2.data }), true) :=
  save_load_roundtrip demoImg2 demoPe2 demoArr3 demoArr3 demoArr3 demoArr3
    demoImg2 (.str "ASTRICam") (.int 1) (.int 2) (.str "r.simtel") (.int 3)
    (.flt (.num 1)) "TeV" (.flt (.num 0)) "rad" (.flt (.num 1)) "rad"
    (.flt (.num 10)) "m" (.flt (.num 20)) "m" (.flt (.num 30)) "m" (.int 0)
    (.int 4) (.int 5) (.flt (.num 16)) "m" (.flt (.num 1)) "m"
    (.flt (.num 2)) "m" (.flt (.num 3)) "m" "out.fits" (by decide)
    (by decide) (by decide) (by decide) (by decide) (by decide) (by decide)
    (by decide)

/-- Counterexample to **C2** as stated: on a benchmark-shaped 7-HDU
all-image file whose version keyword holds the unrecognized value 2 (all
metadata keywords present), `load_benchmark_images` raises the bare
`Exception("Unknown version number")`, not `WrongFitsFileStructure`. -/
theorem load_benchmark_images_unknown_version_cex :
    (load_benchmark_images versionTwoFile "test.fits").1 =
      .error .unknownVersion
  ∧ (load_benchmark_images versionTwoFile "test.fits").1 ≠
      .error (.wrongFitsFileStructure "test.fits") := by
  have h1 : (load_benchmark_images versionTwoFile "test.fits").1 =
      .error .unknownVersion := by rfl
  refine ⟨h1, ?_⟩
  rw [h1]
  simp

/-- **C2** amended: for a FITS file whose primary header carries all the
metadata keywords the loader reads, if the version field holds 1 then any
deviation of the layout (HDU count different from 7, or a non-image HDU
among the first 7) fails with `WrongFitsFileStructure`; an unrecognized
version number instead fails with the bare "Unknown version number"
exception (and without closing the file). -/
theorem load_benchmark_images_structure_errors (hdu_list : FitsFile)
    (path : String) (hdu0 : HDU) (md : MetaDict)
    (hhead : hdu_list.head? = some hdu0)
    (hread : readMeta hdu0.header path = .ok md) :
    (md.version = HVal.int 1 → benchmarkStructureBad hdu_list = true →
      load_benchmark_images hdu_list path =
        (.error (.wrongFitsFileStructure path), true))
  ∧ (md.version ≠ HVal.int 1 →
      load_benchmark_images hdu_list path =
        (.error .unknownVersion, false)) := by
  constructor
  · intro hv hbad
    simp [load_benchmark_images, hhead, hread, hv, hbad]
  · intro hv
    simp [load_benchmark_images, hhead, hread, hv]

/-- Witness for the amended C2: a version 1 file with a single HDU fails
with `WrongFitsFileStructure` (and the handle is closed); the version 2
file fails with the unknown-version exception. -/
theorem load_benchmark_images_structure_errors_witness :
    load_benchmark_images [imageHDU (fullHeader 1)] "w.fits" =
      (.error (.wrongFitsFileStructure "w.fits"), true)
  ∧ load_benchmark_images versionTwoFile "w2.fits" =
      (.error .unknownVersion, false) := by
  constructor
  · exact (load_benchmark_images_structure_errors [imageHDU (fullHeader 1)]
      "w.fits" (imageHDU (fullHeader 1)) _ rfl rfl).1 rfl (by rfl)
  · exact (load_benchmark_images_structure_errors versionTwoFile "w2.fits"
      (imageHDU (fullHeader 2)) _ rfl rfl).2 (by decide)

/-- **C5** at its failing input (code bug): on a file whose version
keyword is not 1, `load_benchmark_images` terminates with the
unknown-version exception while the recorded close flag is `false` — the
`hdu_list.close()` of images.py is skipped on this exit path (line 959
raises without closing, unlike the structure-error path at line 936), so
the FITS handle leaks. -/
theorem load_benchmark_images_close_leak :
    (load_benchmark_images versionThreeFile "leak.fits").2 = false
  ∧ (load_benchmark_images versionThreeFile "leak.fits").1 =
      .error .unknownVersion := by
  exact ⟨rfl, rfl⟩

end Datapipe
